import Mathlib

/-!
Verification of the dsa_genie_backend server (src/server.js) against its
natural-language specification.

Strings are modelled as `List Char`.  JavaScript values that may be
`undefined`/`null` are modelled as `Option (List Char)`; JavaScript
truthiness of a string (`!s` is true exactly for the empty string, and for
`undefined`/`null`) is captured by `jsFalsy`.

External effects (the Groq chat-completion call and the two YouTube
playlist fetches) are modelled by an oracle (`World`): each request handler
is a pure function of the environment (API keys), the request body and the
oracle, returning the HTTP response together with the list of outbound
network calls it performed, in order.
-/

/-- JavaScript truthiness test for an optional string: `undefined`, `null`
and the empty string are falsy. -/
def jsFalsy : Option (List Char) → Bool
  | none => true
  | some s => s.isEmpty

/-- `startsWithL pat s` is true when `pat` is an initial segment of `s`. -/
def startsWithL : List Char → List Char → Bool
  | [], _ => true
  | _ :: _, [] => false
  | p :: ps, c :: cs => p == c && startsWithL ps cs

/-- `containsSub pat s` models JavaScript `s.includes(pat)`: some suffix of
`s` starts with `pat`. -/
def containsSub (pat : List Char) : List Char → Bool
  | [] => startsWithL pat []
  | c :: cs => startsWithL pat (c :: cs) || containsSub pat cs

/-- Whitespace characters removed by `String.prototype.trim` (the ASCII
part of the JavaScript whitespace class; the claims do not involve the
exotic Unicode space characters). -/
def isJsSpace (c : Char) : Bool :=
  c == ' ' || c == '\t' || c == '\n' || c == '\r' || c == '\x0b' || c == '\x0c'

/-- Model of JavaScript `s.trim()`: strip whitespace from both ends. -/
def trimL (s : List Char) : List Char :=
  ((s.dropWhile isJsSpace).reverse.dropWhile isJsSpace).reverse

/-- Word characters of the JavaScript regex class `\w` (`[A-Za-z0-9_]`);
`Char.isAlpha`/`Char.isDigit` are exactly the ASCII ranges. -/
def isWordChar (c : Char) : Bool :=
  c.isAlpha || c.isDigit || c == '_'

/-- Regex word boundary `\b` on the left of a match: satisfied at the start
of the string or after a non-word character.  The argument is the character
immediately before the match position, if any. -/
def okBefore : Option Char → Bool
  | none => true
  | some c => !(isWordChar c)

/-- Regex word boundary `\b` on the right of a match whose last character
is a word character: satisfied at the end of the string or before a
non-word character.  The argument is the rest of the string after the
match. -/
def okAfter : List Char → Bool
  | [] => true
  | c :: _ => !(isWordChar c)

/-! ### parseProblemFromUrl (src/server.js lines 90-94) -/

/-- The literal problem-page pattern tested by `url.includes(...)` and
anchoring the extraction regex `/leetcode\.com\/problems\/([^/?#]+)/`. -/
def problemsPat : List Char := ("leetcode.com/problems/").toList

/-- Characters that terminate the captured slug: the regex capture group is
`[^/?#]+`. -/
def isStopChar (c : Char) : Bool :=
  c == '/' || c == '?' || c == '#'

/-- Maximal run of non-`/?#` characters at the front of the string: what
the greedy capture group `([^/?#]+)` captures when it matches here. -/
def takeSlug : List Char → List Char
  | [] => []
  | c :: cs => if isStopChar c then [] else c :: takeSlug cs

/-- Operational behaviour of `url.match(/leetcode\.com\/problems\/([^/?#]+)/)`:
scan left to right; at the first position where the literal pattern occurs
and is followed by at least one non-`/?#` character, return the maximal run
of such characters (the capture group).  When the pattern occurs but is
immediately followed by `/`, `?`, `#` or the end of the input, the regex
engine fails at that position (the `+` needs one character) and moves on,
exactly as this scan does. -/
def findSlug : List Char → Option (List Char)
  | [] => none
  | c :: cs =>
    if startsWithL problemsPat (c :: cs) then
      let captured := takeSlug ((c :: cs).drop problemsPat.length)
      if captured.isEmpty then findSlug cs else some captured
    else findSlug cs

/-- Embedding of `parseProblemFromUrl` (src/server.js lines 90-94).  The
source returns `{ slug }`; we return the slug itself.  `!url` is the
JavaScript falsiness test on the string argument. -/
def parseProblemFromUrl (url : List Char) : Option (List Char) :=
  if url.isEmpty then none
  else if containsSub problemsPat url then findSlug url
  else none

/-! ### getPayload (src/server.js lines 96-105) -/

/-- Request body as delivered by `express.json()`: each field is absent
(`none`, covering JavaScript `undefined`/`null`) or a string.
`language` is only read by the `/api/code` handler. -/
structure ReqBody where
  problemSlug : Option (List Char)
  title : Option (List Char)
  url : Option (List Char)
  problemDescription : Option (List Char)
  language : Option (List Char)
deriving DecidableEq

/-- Result shape of `getPayload`. -/
structure Payload where
  problemSlug : List Char
  title : Option (List Char)
  url : Option (List Char)
  problemDescription : Option (List Char)
deriving DecidableEq

/-- JavaScript `a || b` for an optional string `a`: keep `a` when truthy,
otherwise `b`. -/
def jsOr (a : Option (List Char)) (b : List Char) : List Char :=
  match a with
  | none => b
  | some s => if s.isEmpty then b else s

/-- The `body.url ? parseProblemFromUrl(body.url) : null` step of
`getPayload`, projected to the slug (`parsed?.slug`). -/
def parsedSlugOf (b : ReqBody) : Option (List Char) :=
  match b.url with
  | none => none
  | some u => if u.isEmpty then none else parseProblemFromUrl u

/-- Embedding of `getPayload` (src/server.js lines 96-105):
`problemSlug := body.problemSlug || parsed?.slug || 'unknown'`, and the
three other fields default to `null` (`?? null`). -/
def getPayload (b : ReqBody) : Payload :=
  ⟨jsOr b.problemSlug (jsOr (parsedSlugOf b) (("unknown").toList)),
   b.title, b.url, b.problemDescription⟩

/-! ### extractProblemNumber (src/server.js lines 108-118) -/

/-- Operational behaviour of `s.match(/\b(\d{1,4})\b/)`, returning the
capture group of the leftmost match.  At a position preceded by `prev`
(the previous character, `none` at the start), `\b` holds when `prev` is
absent or a non-word character; the greedy `\d{1,4}` with the trailing
`\b` then succeeds exactly when the maximal digit run starting here has
length between 1 and 4 and is followed by a non-word character or the end
(shorter backtracked attempts always end before another digit, i.e. inside
a word, and runs of five or more digits admit no boundary).  On failure
the engine advances one position, as this scan does. -/
def firstNumber (prev : Option Char) : List Char → Option (List Char)
  | [] => none
  | c :: cs =>
    let run := (c :: cs).takeWhile Char.isDigit
    if okBefore prev && decide (1 ≤ run.length) && decide (run.length ≤ 4)
        && okAfter ((c :: cs).drop run.length) then
      some run
    else firstNumber (some c) cs

/-- Embedding of `extractProblemNumber` (src/server.js lines 108-118): try
the title first (when truthy), then the slug (when truthy), else `null`. -/
def extractProblemNumber (title : Option (List Char)) (slug : List Char) :
    Option (List Char) :=
  match (match title with
         | none => none
         | some t => if t.isEmpty then none else firstNumber none t) with
  | some n => some n
  | none => if slug.isEmpty then none else firstNumber none slug

/-! ### Prompt builders (src/server.js lines 33-72) -/

/-- The `EXPLANATION_SYSTEM` prompt string (src/server.js lines 33-39). -/
def EXPLANATION_SYSTEM : List Char :=
  ("You are a concise DSA tutor. Give only what is needed: no intros, no filler, no \"in conclusion\".\nOutput format:\n- Explain how the hints can be turned into a working solution, step by step.\n- Key insight (one line).\n- Steps (short bullet points).\n- Time/space complexity (one line each).\nUse plain text. No markdown headers. Keep under 200 words.").toList

/-- The `PSEUDOCODE_SYSTEM` prompt string (src/server.js lines 48-52). -/
def PSEUDOCODE_SYSTEM : List Char :=
  ("You output minimal pseudocode only. Rules:\n- No long comments. At most one short line per block.\n- Use clear variable names and standard constructs (loops, conditionals).\n- Match the algorithm steps only. No \"read input\" or \"return output\" fluff unless non-obvious.\n- Keep it under 25 lines.").toList

/-- The `CODE_SYSTEM` prompt string (src/server.js lines 61-64). -/
def CODE_SYSTEM : List Char :=
  ("You output a single, correct LeetCode solution. Rules:\n- Exact function/class signature expected by LeetCode for this problem. No extra driver code.\n- Clean, readable code. Comments only where logic is non-obvious.\n- No \"Explanation:\" or extra text before/after the code. Output only the code.").toList

/-- JavaScript `problemTitle || problemSlug` as used in every builder. -/
def titleOrSlug (t : Option (List Char)) (slug : List Char) : List Char :=
  jsOr t slug

/-- The default problem statement line used when no usable description is
supplied: `` `LeetCode problem: ${problemTitle || problemSlug}` ``. -/
def defaultDescLine (t : Option (List Char)) (slug : List Char) : List Char :=
  ("LeetCode problem: ").toList ++ titleOrSlug t slug

/-- The `desc` computation appearing verbatim in all three builders
(src/server.js lines 42-44, 55-57, 67-69):
`problemDescription && problemDescription.trim() ?
 problemDescription.trim().slice(0, 6000) : fallback`. -/
def chooseDesc (fallback : List Char) (pd : Option (List Char)) : List Char :=
  match pd with
  | none => fallback
  | some d =>
    if d.isEmpty then fallback
    else if (trimL d).isEmpty then fallback
    else (trimL d).take 6000

/-- Embedding of `buildExplanationUser` (src/server.js lines 41-46). -/
def buildExplanationUser (t : Option (List Char)) (slug : List Char)
    (pd : Option (List Char)) : List Char :=
  ("Problem: ").toList ++ titleOrSlug t slug
    ++ ("\n\nProblem statement:\n").toList
    ++ chooseDesc (defaultDescLine t slug) pd
    ++ ("\n\nProvide a short, specific explanation.").toList

/-- Embedding of `buildPseudocodeUser` (src/server.js lines 54-59). -/
def buildPseudocodeUser (t : Option (List Char)) (slug : List Char)
    (pd : Option (List Char)) : List Char :=
  ("Problem: ").toList ++ titleOrSlug t slug
    ++ ("\n\nStatement:\n").toList
    ++ chooseDesc (defaultDescLine t slug) pd
    ++ ("\n\nOutput only the pseudocode, nothing else.").toList

/-- The language-name lookup of `buildCodeUser`:
`{ cpp: 'C++', java: 'Java', python: 'Python' }[language] || 'C++'`. -/
def langName (language : List Char) : List Char :=
  if language = ("cpp").toList then ("C++").toList
  else if language = ("java").toList then ("Java").toList
  else if language = ("python").toList then ("Python").toList
  else ("C++").toList

/-- Embedding of `buildCodeUser` (src/server.js lines 66-72). -/
def buildCodeUser (t : Option (List Char)) (slug : List Char)
    (pd : Option (List Char)) (language : List Char) : List Char :=
  ("Problem: ").toList ++ titleOrSlug t slug
    ++ ("\n\nStatement:\n").toList
    ++ chooseDesc (defaultDescLine t slug) pd
    ++ ("\n\nProvide the complete, runnable LeetCode solution in ").toList
    ++ langName language
    ++ (" only. No explanation, only code.").toList

/-- The allowed-language list of the `/api/code` handler
(src/server.js line 148). -/
def allowedLanguages : List (List Char) :=
  [("cpp").toList, ("java").toList, ("python").toList]

/-- The language selection of the `/api/code` handler (src/server.js line
148): `['cpp','java','python'].includes(req.body?.language) ?
req.body.language : 'cpp'`. -/
def selectLanguage (language : Option (List Char)) : List Char :=
  match language with
  | none => ("cpp").toList
  | some l => if allowedLanguages.contains l then l else ("cpp").toList

/-! ### The Groq call and the outbound-call model -/

/-- One outbound network call, recorded with the data the server sends. -/
inductive OutCall where
  | groqCall (systemPrompt userPrompt : List Char)
  | fetchCall (url : List Char)
deriving DecidableEq

/-- Oracle for one Groq chat-completion call: either the SDK call throws
(`raise`, e.g. a network failure), or it returns and
`completion?.choices?.[0]?.message?.content` is the given optional
string (`none` when any link of the optional chain is missing). -/
inductive GroqOutcome where
  | raise (msg : List Char)
  | done (content : Option (List Char))
deriving DecidableEq

/-- The error message thrown by `groqComplete` when the Groq client was not
constructed (src/server.js line 75). -/
def groqMissingMsg : List Char :=
  ("GROQ_API_KEY not set. Add it to backend .env (local) or Render Environment (deployed).").toList

/-- The error message thrown on a missing or blank completion text
(src/server.js line 86). -/
def emptyGroqMsg : List Char := ("Empty response from Groq").toList

/-- Embedding of `groqComplete` (src/server.js lines 74-88).  `groqKey` is
`process.env.GROQ_API_KEY`; the client `groq` exists exactly when the key
is truthy.  Returns the thrown message or the trimmed text, together with
the outbound calls performed (none when the guard throws first). -/
def groqComplete (groqKey : Option (List Char)) (o : GroqOutcome)
    (systemPrompt userPrompt : List Char) :
    Except (List Char) (List Char) × List OutCall :=
  if jsFalsy groqKey then (Except.error groqMissingMsg, [])
  else
    (match o with
     | GroqOutcome.raise m => Except.error m
     | GroqOutcome.done content =>
       match content with
       | none => Except.error emptyGroqMsg
       | some raw =>
         if (trimL raw).isEmpty then Except.error emptyGroqMsg
         else Except.ok (trimL raw),
     [OutCall.groqCall systemPrompt userPrompt])

/-! ### Responses and handlers -/

/-- The `data` payload of a successful response, per endpoint. -/
inductive RespData where
  | explanation (text : List Char)
  | pseudocode (text : List Char)
  | codeData (code : List Char) (language : List Char)
  | video (videoId : Option (List Char))
  | health
deriving DecidableEq

/-- Response body: `{ success: true, data }` or `{ success: false, error }`. -/
inductive RespBody where
  | ok (data : RespData)
  | failure (error : List Char)
deriving DecidableEq

/-- An HTTP response: status code and JSON body. -/
structure Resp where
  status : Nat
  body : RespBody
deriving DecidableEq

/-- The `success` flag carried by the response body. -/
def Resp.successFlag (r : Resp) : Bool :=
  match r.body with
  | RespBody.ok _ => true
  | RespBody.failure _ => false

/-- Server environment: the two API keys (`none` = unset). -/
structure Env where
  groqKey : Option (List Char)
  ytKey : Option (List Char)
deriving DecidableEq

/-- A playlist item as consumed by the `/api/youtube` handler: we assume
the well-formed YouTube API shape in which `snippet` and
`snippet.resourceId` are present; `snippet.title` may be absent (the code
guards it with `item.snippet?.title || ''`) and `videoId` is a string. -/
structure PlaylistItem where
  title : Option (List Char)
  videoId : List Char
deriving DecidableEq

/-- Oracle for one `fetch(...).json()` round trip of `/api/youtube`:
either the fetch or JSON parse throws, or it yields `data.items`
(an absent `items` field behaves like the empty list in both uses). -/
inductive FetchResult where
  | raise (msg : List Char)
  | ok (items : List PlaylistItem)
deriving DecidableEq

/-- Oracle for all outbound calls a single request might make.  Only the
field for the call actually performed is ever consulted. -/
structure World where
  groq : GroqOutcome
  playlistFetch : FetchResult
  fallbackFetch : FetchResult
deriving DecidableEq

/-- Common shape of the three Groq-backed handlers (src/server.js lines
121-155): build the user prompt, await `groqComplete`, answer 200 with the
text on success and 500 with `{ success:false, error: e.message }` on any
thrown error. -/
def groqEndpoint (groqKey : Option (List Char)) (o : GroqOutcome)
    (systemPrompt userPrompt : List Char) (mk : List Char → RespData) :
    Resp × List OutCall :=
  match groqComplete groqKey o systemPrompt userPrompt with
  | (Except.ok text, calls) => (⟨200, RespBody.ok (mk text)⟩, calls)
  | (Except.error m, calls) => (⟨500, RespBody.failure m⟩, calls)

/-- Embedding of `POST /api/explanation` (src/server.js lines 121-130). -/
def handleExplanation (env : Env) (b : ReqBody) (w : World) :
    Resp × List OutCall :=
  let p := getPayload b
  groqEndpoint env.groqKey w.groq EXPLANATION_SYSTEM
    (buildExplanationUser p.title p.problemSlug p.problemDescription)
    RespData.explanation

/-- Embedding of `POST /api/pseudocode` (src/server.js lines 133-142). -/
def handlePseudocode (env : Env) (b : ReqBody) (w : World) :
    Resp × List OutCall :=
  let p := getPayload b
  groqEndpoint env.groqKey w.groq PSEUDOCODE_SYSTEM
    (buildPseudocodeUser p.title p.problemSlug p.problemDescription)
    RespData.pseudocode

/-- Embedding of `POST /api/code` (src/server.js lines 145-155). -/
def handleCode (env : Env) (b : ReqBody) (w : World) :
    Resp × List OutCall :=
  let p := getPayload b
  let language := selectLanguage b.language
  match groqComplete env.groqKey w.groq CODE_SYSTEM
      (buildCodeUser p.title p.problemSlug p.problemDescription language) with
  | (Except.ok code, calls) =>
    (⟨200, RespBody.ok (RespData.codeData code language)⟩, calls)
  | (Except.error m, calls) => (⟨500, RespBody.failure m⟩, calls)

/-- The fixed playlist id (src/server.js line 12). -/
def PLAYLIST_ID : List Char := ("PLlTrva6OzZKThknv28Xx9UTCMYkrL23JQ").toList

/-- The `maxResults=1` fallback fetch URL (src/server.js line 172). -/
def ytFallbackUrl (key : List Char) : List Char :=
  ("https://www.googleapis.com/youtube/v3/playlistItems?part=snippet&maxResults=1&playlistId=").toList
    ++ PLAYLIST_ID ++ ("&key=").toList ++ key

/-- The `maxResults=50` playlist fetch URL (src/server.js line 180). -/
def ytPlaylistUrl (key : List Char) : List Char :=
  ("https://www.googleapis.com/youtube/v3/playlistItems?part=snippet&maxResults=50&playlistId=").toList
    ++ PLAYLIST_ID ++ ("&key=").toList ++ key

/-- The matching test of the `/api/youtube` loop (src/server.js lines
191-194) on `videoTitle = item.snippet?.title || ''`: contains
`` ` ${n}.` ``, or `` `#${n}` ``, or `` `LeetCode ${n}` ``, or matches
`new RegExp('\\b' + n + '\\b')`. -/
def hasStandalone (n : List Char) (prev : Option Char) :
    List Char → Bool
  | [] => okBefore prev && startsWithL n [] && okAfter (List.drop n.length [])
  | c :: cs =>
    (okBefore prev && startsWithL n (c :: cs)
      && okAfter ((c :: cs).drop n.length))
    || hasStandalone n (some c) cs

/-- The four accepted title formats for problem number `n`
(src/server.js lines 191-194). -/
def titleMatches (n : List Char) (videoTitle : List Char) : Bool :=
  containsSub ((' ' :: n) ++ ['.']) videoTitle
  || containsSub ('#' :: n) videoTitle
  || containsSub ((("LeetCode ").toList) ++ n) videoTitle
  || hasStandalone n none videoTitle

/-- The `YOUTUBE_API_KEY not set` error body (src/server.js line 162). -/
def ytMissingMsg : List Char := ("YOUTUBE_API_KEY not set").toList

/-- Embedding of `POST /api/youtube` (src/server.js lines 159-213).
With the key unset, answer 500 immediately (no fetch).  With no problem
number, perform the `maxResults=1` fallback fetch and answer its first
video id (`|| null` turns an empty id into `null`).  Otherwise perform the
`maxResults=50` fetch; `bestVideoId` is the video id of the first item
whose title matches, and when that is still falsy (`null` from no match,
or the empty string) and the list is non-empty, it is replaced by the
first item's video id.  A thrown fetch error becomes a 500 with the raw
message. -/
def handleYoutube (env : Env) (b : ReqBody) (w : World) :
    Resp × List OutCall :=
  if jsFalsy env.ytKey then (⟨500, RespBody.failure ytMissingMsg⟩, [])
  else
    let key := env.ytKey.getD []
    let p := getPayload b
    match extractProblemNumber p.title p.problemSlug with
    | none =>
      (match w.fallbackFetch with
       | FetchResult.raise m => (⟨500, RespBody.failure m⟩, [OutCall.fetchCall (ytFallbackUrl key)])
       | FetchResult.ok items =>
         let vid := match items.head? with
           | none => none
           | some it => if it.videoId.isEmpty then none else some it.videoId
         (⟨200, RespBody.ok (RespData.video vid)⟩, [OutCall.fetchCall (ytFallbackUrl key)]))
    | some n =>
      (match w.playlistFetch with
       | FetchResult.raise m => (⟨500, RespBody.failure m⟩, [OutCall.fetchCall (ytPlaylistUrl key)])
       | FetchResult.ok items =>
         let best := (items.find? (fun it => titleMatches n (it.title.getD []))).map PlaylistItem.videoId
         let best2 := if jsFalsy best && decide (0 < items.length) then
             (items.head?).map PlaylistItem.videoId
           else best
         (⟨200, RespBody.ok (RespData.video best2)⟩, [OutCall.fetchCall (ytPlaylistUrl key)]))

/-- Embedding of `GET /health` (src/server.js line 215). -/
def handleHealth : Resp × List OutCall :=
  (⟨200, RespBody.ok RespData.health⟩, [])

/-! ### Specification-side characterizations

The scanning functions `findSlug` and `firstNumber` are transcriptions of
the regex engine's operational behaviour.  The following definitions state
the same searches declaratively, as "the first position `p` (in
`List.range`) satisfying the positional condition", and are proved equal
to the scans. -/

/-- Position `p` of `u` carries a slug: the literal pattern occurs at `p`
and is followed by at least one non-`/?#` character. -/
def slugAt (u : List Char) (p : Nat) : Bool :=
  startsWithL problemsPat (u.drop p)
    && !((takeSlug ((u.drop p).drop problemsPat.length)).isEmpty)

/-- The slug captured at position `p`: the maximal run of non-`/?#`
characters after the pattern occurrence. -/
def slugCaptureAt (u : List Char) (p : Nat) : List Char :=
  takeSlug ((u.drop p).drop problemsPat.length)

/-- Declarative description of the URL slug extraction: the capture at the
first position of `u` where the pattern is followed by a non-empty
segment, if any. -/
def specSlug (u : List Char) : Option (List Char) :=
  ((List.range u.length).find? (slugAt u)).map (slugCaptureAt u)

/-- The maximal digit run of `s` starting at position `p`. -/
def runAt (s : List Char) (p : Nat) : List Char :=
  (s.drop p).takeWhile Char.isDigit

/-- Word boundary on the left of position `p` of `s`: `p` is the start of
the string or the preceding character is a non-word character. -/
def boundaryBefore (s : List Char) : Nat → Bool
  | 0 => true
  | q + 1 =>
    match (s.drop q).head? with
    | some c => !(isWordChar c)
    | none => true

/-- The digit run at position `p` makes a `\d{1,4}` match with a right
word boundary: length between 1 and 4, followed by a non-word character
or the end of the string. -/
def numRunOk (s : List Char) (p : Nat) : Bool :=
  decide (1 ≤ (runAt s p).length) && decide ((runAt s p).length ≤ 4)
    && okAfter ((s.drop p).drop (runAt s p).length)

/-- Position `p` of `s` carries a standalone 1-to-4-digit number, where
the boundary on the left of position 0 is judged against `prev` (the
character preceding the scanned string, `none` for a whole string). -/
def standAtPrev (prev : Option Char) (s : List Char) (p : Nat) : Bool :=
  (match p with
   | 0 => okBefore prev
   | Nat.succ q => boundaryBefore s (Nat.succ q)) && numRunOk s p

/-- Declarative description of `s.match(/\b(\d{1,4})\b/)`: the digit run
at the first position of `s` carrying a standalone 1-to-4-digit number. -/
def specFirstNumber (s : List Char) : Option (List Char) :=
  ((List.range s.length).find? (standAtPrev none s)).map (runAt s)

/-- One step of the position shift for `slugAt`. -/
theorem slugAt_succ (c : Char) (cs : List Char) (p : Nat) :
    slugAt (c :: cs) (p + 1) = slugAt cs p := by
  simp [slugAt, List.drop_succ_cons]

/-- One step of the position shift for `slugCaptureAt`. -/
theorem slugCaptureAt_succ (c : Char) (cs : List Char) (p : Nat) :
    slugCaptureAt (c :: cs) (p + 1) = slugCaptureAt cs p := by
  simp [slugCaptureAt, List.drop_succ_cons]

/-- The scanning slug search agrees with its declarative description. -/
theorem findSlug_eq_specSlug : ∀ u : List Char, findSlug u = specSlug u := by
  intro u
  induction u with
  | nil => simp [findSlug, specSlug]
  | cons c cs ih =>
    have hlen : (c :: cs).length = cs.length + 1 := rfl
    by_cases h0 : slugAt (c :: cs) 0 = true
    · have h1 : startsWithL problemsPat (c :: cs) = true := by
        have h := h0
        simp [slugAt] at h
        exact h.1
      have h2 : (takeSlug ((c :: cs).drop problemsPat.length)).isEmpty = false := by
        have h := h0
        simp [slugAt] at h
        simpa using h.2
      unfold specSlug
      rw [hlen, List.range_succ_eq_map, List.find?_cons_of_pos _ h0]
      unfold findSlug
      simp [h1, h2, slugCaptureAt]
    · have h0' : slugAt (c :: cs) 0 = false := by
        simpa using h0
      have hshift : (slugAt (c :: cs)) ∘ Nat.succ = slugAt cs := by
        funext p
        simpa using slugAt_succ c cs p
      have hshift2 : (slugCaptureAt (c :: cs)) ∘ Nat.succ = slugCaptureAt cs := by
        funext p
        simpa using slugCaptureAt_succ c cs p
      have hrhs : specSlug (c :: cs) = specSlug cs := by
        unfold specSlug
        rw [hlen, List.range_succ_eq_map,
          List.find?_cons_of_neg _ (by simp [h0']), List.find?_map, hshift,
          Option.map_map, hshift2]
      rw [hrhs]
      unfold findSlug
      by_cases hs : startsWithL problemsPat (c :: cs) = true
      · have hcap : (takeSlug ((c :: cs).drop problemsPat.length)).isEmpty = true := by
          have h := h0'
          simp [slugAt, hs] at h
          simpa using h
        simp [hs, hcap, ih]
      · have hs' : startsWithL problemsPat (c :: cs) = false := by
          simpa using hs
        simp [hs', ih]

/-- When the URL does not contain the pattern, the scan finds nothing. -/
theorem findSlug_of_not_contains : ∀ u : List Char,
    containsSub problemsPat u = false → findSlug u = none := by
  intro u
  induction u with
  | nil => intro _; rfl
  | cons c cs ih =>
    intro h
    unfold containsSub at h
    rw [Bool.or_eq_false_iff] at h
    unfold findSlug
    simp [h.1, ih h.2]

/-- The falsy-URL guard and the `includes` pre-check of
`parseProblemFromUrl` never change the result of the regex search. -/
theorem parseProblemFromUrl_eq_findSlug (u : List Char) :
    parseProblemFromUrl u = findSlug u := by
  unfold parseProblemFromUrl
  by_cases he : u.isEmpty = true
  · have : u = [] := by simpa [List.isEmpty_iff] using he
    subst this
    simp [findSlug]
  · have he' : u.isEmpty = false := by simpa using he
    by_cases hc : containsSub problemsPat u = true
    · simp [he', hc]
    · have hc' : containsSub problemsPat u = false := by simpa using hc
      simp [he', hc', findSlug_of_not_contains u hc']

/-- The position-0 condition of `standAtPrev` is exactly the guard of the
scan `firstNumber`. -/
theorem standAtPrev_zero (prev : Option Char) (s : List Char) :
    standAtPrev prev s 0
      = (okBefore prev && decide (1 ≤ (s.takeWhile Char.isDigit).length)
         && decide ((s.takeWhile Char.isDigit).length ≤ 4)
         && okAfter (s.drop (s.takeWhile Char.isDigit).length)) := by
  simp [standAtPrev, numRunOk, runAt, Bool.and_assoc]

/-- One step of the position shift for `standAtPrev`. -/
theorem standAtPrev_succ (prev : Option Char) (c : Char) (cs : List Char) (p : Nat) :
    standAtPrev prev (c :: cs) (p + 1) = standAtPrev (some c) cs p := by
  cases p with
  | zero =>
    simp [standAtPrev, boundaryBefore, numRunOk, runAt, okBefore,
      List.drop_succ_cons]
  | succ q =>
    simp [standAtPrev, boundaryBefore, numRunOk, runAt, List.drop_succ_cons]

/-- One step of the position shift for `runAt`. -/
theorem runAt_succ (c : Char) (cs : List Char) (p : Nat) :
    runAt (c :: cs) (p + 1) = runAt cs p := by
  simp [runAt, List.drop_succ_cons]

/-- The scanning number search agrees with its declarative description,
for any left context `prev`. -/
theorem firstNumber_eq_find : ∀ (s : List Char) (prev : Option Char),
    firstNumber prev s
      = ((List.range s.length).find? (standAtPrev prev s)).map (runAt s) := by
  intro s
  induction s with
  | nil => intro prev; simp [firstNumber]
  | cons c cs ih =>
    intro prev
    have hlen : (c :: cs).length = cs.length + 1 := rfl
    by_cases h0 : standAtPrev prev (c :: cs) 0 = true
    · have hc : (okBefore prev
          && decide (1 ≤ ((c :: cs).takeWhile Char.isDigit).length)
          && decide (((c :: cs).takeWhile Char.isDigit).length ≤ 4)
          && okAfter ((c :: cs).drop ((c :: cs).takeWhile Char.isDigit).length))
          = true := by
        rw [← standAtPrev_zero]
        exact h0
      rw [hlen, List.range_succ_eq_map, List.find?_cons_of_pos _ h0]
      simp [firstNumber, hc, runAt]
    · have h0' : standAtPrev prev (c :: cs) 0 = false := by
        simpa using h0
      have hc : (okBefore prev
          && decide (1 ≤ ((c :: cs).takeWhile Char.isDigit).length)
          && decide (((c :: cs).takeWhile Char.isDigit).length ≤ 4)
          && okAfter ((c :: cs).drop ((c :: cs).takeWhile Char.isDigit).length))
          = false := by
        rw [← standAtPrev_zero]
        exact h0'
      have hshift : (standAtPrev prev (c :: cs)) ∘ Nat.succ = standAtPrev (some c) cs := by
        funext p
        simpa using standAtPrev_succ prev c cs p
      have hshift2 : (runAt (c :: cs)) ∘ Nat.succ = runAt cs := by
        funext p
        simpa using runAt_succ c cs p
      rw [hlen, List.range_succ_eq_map, List.find?_cons_of_neg _ (by simp [h0']),
        List.find?_map, hshift, Option.map_map, hshift2, ← ih (some c)]
      simp [firstNumber, hc]

/-! ### Response-shape helpers -/

/-- Shape of every response the server produces: HTTP 200 with
`success: true` and a data payload, or HTTP 500 with `success: false` and
an error-message string. -/
def wellShaped (r : Resp) : Prop :=
  (r.status = 200 ∧ r.successFlag = true ∧ ∃ d, r.body = RespBody.ok d)
  ∨ (r.status = 500 ∧ r.successFlag = false ∧ ∃ m, r.body = RespBody.failure m)

/-- Any Groq-backed endpoint produces a well-shaped response. -/
theorem groqEndpoint_wellShaped (k : Option (List Char)) (o : GroqOutcome)
    (s u : List Char) (mk : List Char → RespData) :
    wellShaped (groqEndpoint k o s u mk).1 := by
  unfold groqEndpoint
  rcases h : groqComplete k o s u with ⟨e, cl⟩
  cases e <;> simp [wellShaped, Resp.successFlag]

/-- Any Groq-backed endpoint performs at most one outbound call. -/
theorem groqEndpoint_calls (k : Option (List Char)) (o : GroqOutcome)
    (s u : List Char) (mk : List Char → RespData) :
    (groqEndpoint k o s u mk).2.length ≤ 1 := by
  unfold groqEndpoint groqComplete
  by_cases hk : jsFalsy k = true
  · simp [hk]
  · have hk' : jsFalsy k = false := by simpa using hk
    cases o with
    | raise m => simp [hk']
    | done content =>
      cases content with
      | none => simp [hk']
      | some raw =>
        by_cases ht : (trimL raw).isEmpty = true <;> simp [hk', ht]

/-- A successful find in a list means the list is not empty, so its length
is positive. -/
theorem find?_some_length_pos {α : Type} (p : α → Bool) (l : List α)
    (a : α) (h : l.find? p = some a) : decide (0 < l.length) = true := by
  cases l with
  | nil => simp [List.find?] at h
  | cons x xs => simp

/-! ### C1 -/

/-- C1 (counterexample): with problem number `1` extracted from the title
`1. Two Sum`, the playlist item `intro` does not match, the item
`#1 Two Sum` is the first matching item, and its video id is the empty
string; the claim says the lookup selects that first matching item, but the
response instead carries `vidA`, the first playlist item's id (the code's
`!bestVideoId` falsiness check treats the empty id like "no match" and
falls back to `items[0]`). -/
theorem c1_first_match_counterexample :
    extractProblemNumber (some (("1. Two Sum").toList)) (("unknown").toList)
      = some (("1").toList)
    ∧ titleMatches (("1").toList) (("intro").toList) = false
    ∧ titleMatches (("1").toList) (("#1 Two Sum").toList) = true
    ∧ (handleYoutube ⟨none, some (("k").toList)⟩
        ⟨none, some (("1. Two Sum").toList), none, none, none⟩
        ⟨GroqOutcome.done none,
         FetchResult.ok [⟨some (("intro").toList), ("vidA").toList⟩,
                         ⟨some (("#1 Two Sum").toList), []⟩],
         FetchResult.ok []⟩).1
      = ⟨200, RespBody.ok (RespData.video (some (("vidA").toList)))⟩
    ∧ ("vidA").toList ≠ ([] : List Char) := by
  decide

/-- C1 (amended): when the request yields a problem number and the
playlist fetch succeeds, the response carries the video id of the first
playlist item (in playlist order) whose title contains the number in one
of the accepted formats, except that an empty matched video id is replaced
by the first item's video id; when no item matches, the first item's video
id is used, and with no items the video id is null. -/
theorem c1_lookup_first_match (env : Env) (b : ReqBody) (w : World)
    (n : List Char) (items : List PlaylistItem)
    (hk : jsFalsy env.ytKey = false)
    (hn : extractProblemNumber (getPayload b).title (getPayload b).problemSlug
      = some n)
    (hw : w.playlistFetch = FetchResult.ok items) :
    (handleYoutube env b w).1
      = ⟨200, RespBody.ok (RespData.video
          (match items.find? (fun it => titleMatches n (it.title.getD [])) with
           | some it =>
             if it.videoId.isEmpty then (items.head?).map PlaylistItem.videoId
             else some it.videoId
           | none => (items.head?).map PlaylistItem.videoId))⟩ := by
  unfold handleYoutube
  rw [hk]
  simp only [Bool.false_eq_true, if_false, hn, hw]
  rcases hfind : items.find? (fun it => titleMatches n (it.title.getD [])) with _ | it
  · cases items with
    | nil => simp [hfind, jsFalsy]
    | cons x xs => simp [hfind, jsFalsy]
  · have hpos := find?_some_length_pos _ _ _ hfind
    by_cases hv : it.videoId.isEmpty = true
    · simp [hfind, jsFalsy, hv, hpos]
    · have hv' : it.videoId.isEmpty = false := by simpa using hv
      simp [hfind, jsFalsy, hv', hpos]

/-- C1 (witness): a normal run of the amended statement, on a playlist
whose first matching item has a non-empty video id. -/
theorem c1_lookup_first_match_witness :
    (handleYoutube ⟨none, some (("k").toList)⟩
      ⟨none, some (("1. Two Sum").toList), none, none, none⟩
      ⟨GroqOutcome.done none,
       FetchResult.ok [⟨some (("intro").toList), ("vidA").toList⟩,
                       ⟨some (("#1 Two Sum").toList), ("vidB").toList⟩],
       FetchResult.ok []⟩).1
      = ⟨200, RespBody.ok (RespData.video (some (("vidB").toList)))⟩ := by
  have h := c1_lookup_first_match ⟨none, some (("k").toList)⟩
    ⟨none, some (("1. Two Sum").toList), none, none, none⟩
    ⟨GroqOutcome.done none,
     FetchResult.ok [⟨some (("intro").toList), ("vidA").toList⟩,
                     ⟨some (("#1 Two Sum").toList), ("vidB").toList⟩],
     FetchResult.ok []⟩
    (("1").toList)
    [⟨some (("intro").toList), ("vidA").toList⟩,
     ⟨some (("#1 Two Sum").toList), ("vidB").toList⟩]
    (by decide) (by decide) rfl
  rw [h]
  decide

/-! ### C2 -/

/-- C2 (counterexample): the URL `https://leetcode.com/problems/` contains
the problem-page pattern, yet `parseProblemFromUrl` returns null instead
of the (empty) path segment following `problems/`: the capture group
`[^/?#]+` requires at least one character. -/
theorem c2_parse_counterexample :
    containsSub problemsPat (("https://leetcode.com/problems/").toList) = true
    ∧ parseProblemFromUrl (("https://leetcode.com/problems/").toList) = none := by
  decide

/-- C2 (amended): for every URL, `parseProblemFromUrl` returns the maximal
non-empty run of characters other than `/`, `?`, `#` that follows the
first occurrence of `leetcode.com/problems/` having such a run, and null
when there is no such occurrence — in particular for every URL not
containing the pattern, and for URLs where every occurrence is immediately
followed by `/`, `?`, `#` or the end of the string. -/
theorem c2_parse_first_nonempty_segment (u : List Char) :
    parseProblemFromUrl u = specSlug u := by
  rw [parseProblemFromUrl_eq_findSlug, findSlug_eq_specSlug]

/-! ### C3 -/

/-- C3: the `/api/code` handler selects `cpp` whenever the body language is
absent or outside the allowed set, the exact given value when it is
allowed, and every successful response echoes the selected language in
`data.language`. -/
theorem c3_code_language_default (env : Env) (b : ReqBody) (w : World) :
    ((b.language = none
        ∨ ∃ l, b.language = some l ∧ allowedLanguages.contains l = false) →
      selectLanguage b.language = ("cpp").toList)
    ∧ (∀ l, b.language = some l → allowedLanguages.contains l = true →
      selectLanguage b.language = l)
    ∧ ((handleCode env b w).1.status = 200 →
      ∃ code, (handleCode env b w).1.body
        = RespBody.ok (RespData.codeData code (selectLanguage b.language))) := by
  refine ⟨?_, ?_, ?_⟩
  · rintro (h | ⟨l, hl, hcon⟩)
    · simp [selectLanguage, h]
    · simp only [selectLanguage, hl]
      rw [if_neg (by rw [hcon]; simp)]
  · intro l hl hcon
    simp only [selectLanguage, hl]
    rw [if_pos hcon]
  · simp only [handleCode]
    rcases hg : groqComplete env.groqKey w.groq CODE_SYSTEM
        (buildCodeUser (getPayload b).title (getPayload b).problemSlug
          (getPayload b).problemDescription (selectLanguage b.language))
      with ⟨e, cl⟩
    cases e with
    | ok text => exact fun _ => ⟨text, rfl⟩
    | error m =>
      intro hstatus
      change (500 : Nat) = 200 at hstatus
      exact absurd hstatus (by decide)

/-- C3 (witness): `java` is kept and echoed; `rust` falls back to `cpp`. -/
theorem c3_code_language_default_witness :
    selectLanguage (some (("java").toList)) = ("java").toList
    ∧ selectLanguage (some (("rust").toList)) = ("cpp").toList
    ∧ ∃ code,
        (handleCode ⟨some (("g").toList), none⟩
          ⟨none, none, none, none, some (("java").toList)⟩
          ⟨GroqOutcome.done (some ((" x ").toList)),
           FetchResult.ok [], FetchResult.ok []⟩).1.body
        = RespBody.ok (RespData.codeData code (selectLanguage (some (("java").toList)))) := by
  refine ⟨?_, ?_, ?_⟩
  · exact (c3_code_language_default ⟨some (("g").toList), none⟩
      ⟨none, none, none, none, some (("java").toList)⟩
      ⟨GroqOutcome.done (some ((" x ").toList)),
       FetchResult.ok [], FetchResult.ok []⟩).2.1
      (("java").toList) rfl (by decide)
  · exact (c3_code_language_default ⟨some (("g").toList), none⟩
      ⟨none, none, none, none, some (("rust").toList)⟩
      ⟨GroqOutcome.done (some ((" x ").toList)),
       FetchResult.ok [], FetchResult.ok []⟩).1
      (Or.inr ⟨(("rust").toList), rfl, by decide⟩)
  · exact (c3_code_language_default ⟨some (("g").toList), none⟩
      ⟨none, none, none, none, some (("java").toList)⟩
      ⟨GroqOutcome.done (some ((" x ").toList)),
       FetchResult.ok [], FetchResult.ok []⟩).2.2
      (by decide)

/-! ### C4 -/

/-- C4: with the Groq key unset every Groq-backed endpoint answers
`success:false` with the descriptive key message and performs no outbound
call; with the YouTube key unset `/api/youtube` answers `success:false`
with its descriptive message and performs no outbound call. -/
theorem c4_missing_credentials (env : Env) (b : ReqBody) (w : World) :
    (jsFalsy env.groqKey = true →
      handleExplanation env b w = (⟨500, RespBody.failure groqMissingMsg⟩, [])
      ∧ handlePseudocode env b w = (⟨500, RespBody.failure groqMissingMsg⟩, [])
      ∧ handleCode env b w = (⟨500, RespBody.failure groqMissingMsg⟩, []))
    ∧ (jsFalsy env.ytKey = true →
      handleYoutube env b w = (⟨500, RespBody.failure ytMissingMsg⟩, []))
    ∧ Resp.successFlag ⟨500, RespBody.failure groqMissingMsg⟩ = false
    ∧ Resp.successFlag ⟨500, RespBody.failure ytMissingMsg⟩ = false := by
  refine ⟨?_, ?_, rfl, rfl⟩
  · intro h
    refine ⟨?_, ?_, ?_⟩ <;>
      simp [handleExplanation, handlePseudocode, handleCode, groqEndpoint,
        groqComplete, h]
  · intro h
    simp [handleYoutube, h]

/-- C4 (witness): both key-missing branches at a concrete request. -/
theorem c4_missing_credentials_witness :
    handleExplanation ⟨none, none⟩ ⟨none, none, none, none, none⟩
      ⟨GroqOutcome.done none, FetchResult.ok [], FetchResult.ok []⟩
      = (⟨500, RespBody.failure groqMissingMsg⟩, [])
    ∧ handleYoutube ⟨none, none⟩ ⟨none, none, none, none, none⟩
      ⟨GroqOutcome.done none, FetchResult.ok [], FetchResult.ok []⟩
      = (⟨500, RespBody.failure ytMissingMsg⟩, []) := by
  refine ⟨?_, ?_⟩
  · exact ((c4_missing_credentials ⟨none, none⟩ ⟨none, none, none, none, none⟩
      ⟨GroqOutcome.done none, FetchResult.ok [], FetchResult.ok []⟩).1
      (by decide)).1
  · exact (c4_missing_credentials ⟨none, none⟩ ⟨none, none, none, none, none⟩
      ⟨GroqOutcome.done none, FetchResult.ok [], FetchResult.ok []⟩).2.1
      (by decide)

/-! ### C5 -/

/-- C5: every response of every endpoint is either HTTP 200 with
`success:true` and a data payload, or HTTP 500 with `success:false` and an
error message — no other status or body shape; and each failure source
(thrown Groq error, thrown fetch error) surfaces its raw message as that
error. -/
theorem c5_error_contract (env : Env) (b : ReqBody) (w : World) :
    wellShaped (handleExplanation env b w).1
    ∧ wellShaped (handlePseudocode env b w).1
    ∧ wellShaped (handleCode env b w).1
    ∧ wellShaped (handleYoutube env b w).1
    ∧ wellShaped handleHealth.1
    ∧ (∀ m, jsFalsy env.groqKey = false → w.groq = GroqOutcome.raise m →
        (handleExplanation env b w).1 = ⟨500, RespBody.failure m⟩
        ∧ (handlePseudocode env b w).1 = ⟨500, RespBody.failure m⟩
        ∧ (handleCode env b w).1 = ⟨500, RespBody.failure m⟩)
    ∧ (∀ m, jsFalsy env.ytKey = false →
        extractProblemNumber (getPayload b).title (getPayload b).problemSlug ≠ none →
        w.playlistFetch = FetchResult.raise m →
        (handleYoutube env b w).1 = ⟨500, RespBody.failure m⟩)
    ∧ (∀ m, jsFalsy env.ytKey = false →
        extractProblemNumber (getPayload b).title (getPayload b).problemSlug = none →
        w.fallbackFetch = FetchResult.raise m →
        (handleYoutube env b w).1 = ⟨500, RespBody.failure m⟩) := by
  refine ⟨groqEndpoint_wellShaped _ _ _ _ _, groqEndpoint_wellShaped _ _ _ _ _,
    ?_, ?_, Or.inl ⟨rfl, rfl, RespData.health, rfl⟩, ?_, ?_, ?_⟩
  · simp only [handleCode]
    rcases groqComplete env.groqKey w.groq CODE_SYSTEM
        (buildCodeUser (getPayload b).title (getPayload b).problemSlug
          (getPayload b).problemDescription (selectLanguage b.language))
      with ⟨e, cl⟩
    cases e <;> simp [wellShaped, Resp.successFlag]
  · unfold handleYoutube
    by_cases hk : jsFalsy env.ytKey = true
    · simp [hk, wellShaped, Resp.successFlag]
    · have hk' : jsFalsy env.ytKey = false := by simpa using hk
      simp only [hk', Bool.false_eq_true, if_false]
      rcases extractProblemNumber (getPayload b).title (getPayload b).problemSlug
        with _ | n
      · rcases w.fallbackFetch with m | items <;>
          simp [wellShaped, Resp.successFlag]
      · rcases w.playlistFetch with m | items <;>
          simp [wellShaped, Resp.successFlag]
  · intro m hk hg
    refine ⟨?_, ?_, ?_⟩ <;>
      simp [handleExplanation, handlePseudocode, handleCode, groqEndpoint,
        groqComplete, hk, hg]
  · intro m hk hne hp
    rcases hn : extractProblemNumber (getPayload b).title (getPayload b).problemSlug
      with _ | n
    · exact absurd hn hne
    · simp [handleYoutube, hk, hn, hp]
  · intro m hk hn hf
    simp [handleYoutube, hk, hn, hf]

/-- C5 (witness): the contract at a concrete request where the Groq call
throws a network error, surfaced verbatim. -/
theorem c5_error_contract_witness :
    wellShaped (handleExplanation ⟨some (("g").toList), none⟩
      ⟨none, none, none, none, none⟩
      ⟨GroqOutcome.raise (("network down").toList),
       FetchResult.ok [], FetchResult.ok []⟩).1
    ∧ (handleExplanation ⟨some (("g").toList), none⟩
        ⟨none, none, none, none, none⟩
        ⟨GroqOutcome.raise (("network down").toList),
         FetchResult.ok [], FetchResult.ok []⟩).1
      = ⟨500, RespBody.failure (("network down").toList)⟩ := by
  refine ⟨?_, ?_⟩
  · exact (c5_error_contract ⟨some (("g").toList), none⟩
      ⟨none, none, none, none, none⟩
      ⟨GroqOutcome.raise (("network down").toList),
       FetchResult.ok [], FetchResult.ok []⟩).1
  · exact ((c5_error_contract ⟨some (("g").toList), none⟩
      ⟨none, none, none, none, none⟩
      ⟨GroqOutcome.raise (("network down").toList),
       FetchResult.ok [], FetchResult.ok []⟩).2.2.2.2.2.1
      (("network down").toList) (by decide) rfl).1

/-! ### C6 -/

/-- C6: each prompt builder substitutes a problem-statement block that is
the trimmed description truncated to its first 6000 characters whenever a
non-blank description is supplied (so at most 6000 characters of it are
used, and what is used is a prefix of the trimmed text), and otherwise the
default line naming the title or slug; the three builders embed exactly
that block. -/
theorem c6_description_truncation (t : Option (List Char)) (slug : List Char)
    (pd : Option (List Char)) :
    (∀ d, pd = some d → d ≠ [] → trimL d ≠ [] →
      chooseDesc (defaultDescLine t slug) pd = (trimL d).take 6000
      ∧ (chooseDesc (defaultDescLine t slug) pd).length ≤ 6000
      ∧ chooseDesc (defaultDescLine t slug) pd <+: trimL d)
    ∧ ((pd = none ∨ pd = some [] ∨ (∃ d, pd = some d ∧ trimL d = [])) →
      chooseDesc (defaultDescLine t slug) pd = defaultDescLine t slug)
    ∧ buildExplanationUser t slug pd
        = ("Problem: ").toList ++ titleOrSlug t slug
          ++ ("\n\nProblem statement:\n").toList
          ++ chooseDesc (defaultDescLine t slug) pd
          ++ ("\n\nProvide a short, specific explanation.").toList
    ∧ buildPseudocodeUser t slug pd
        = ("Problem: ").toList ++ titleOrSlug t slug
          ++ ("\n\nStatement:\n").toList
          ++ chooseDesc (defaultDescLine t slug) pd
          ++ ("\n\nOutput only the pseudocode, nothing else.").toList
    ∧ (∀ lang, buildCodeUser t slug pd lang
        = ("Problem: ").toList ++ titleOrSlug t slug
          ++ ("\n\nStatement:\n").toList
          ++ chooseDesc (defaultDescLine t slug) pd
          ++ ("\n\nProvide the complete, runnable LeetCode solution in ").toList
          ++ langName lang
          ++ (" only. No explanation, only code.").toList) := by
  refine ⟨?_, ?_, rfl, rfl, fun lang => rfl⟩
  · intro d hd hne htne
    have he : d.isEmpty = false := by
      simpa [List.isEmpty_iff] using hne
    have hte : (trimL d).isEmpty = false := by
      simpa [List.isEmpty_iff] using htne
    have heq : chooseDesc (defaultDescLine t slug) pd = (trimL d).take 6000 := by
      simp [chooseDesc, hd, he, hte]
    refine ⟨heq, ?_, ?_⟩
    · rw [heq, List.length_take]
      exact min_le_left _ _
    · rw [heq]
      exact List.take_prefix _ _
  · rintro (h | h | ⟨d, hd, htr⟩)
    · simp [chooseDesc, h]
    · simp [chooseDesc, h]
    · by_cases he : d.isEmpty = true
      · simp [chooseDesc, hd, he]
      · have he' : d.isEmpty = false := by simpa using he
        simp [chooseDesc, hd, he', htr]

/-- C6 (witness): a padded description is trimmed and kept; an absent one
falls back to the default line. -/
theorem c6_description_truncation_witness :
    chooseDesc (defaultDescLine none (("two-sum").toList))
      (some (("  given an array  ").toList))
      = (trimL (("  given an array  ").toList)).take 6000
    ∧ chooseDesc (defaultDescLine none (("two-sum").toList)) none
      = defaultDescLine none (("two-sum").toList) := by
  refine ⟨?_, ?_⟩
  · exact ((c6_description_truncation none (("two-sum").toList)
      (some (("  given an array  ").toList))).1
      (("  given an array  ").toList) rfl (by decide) (by decide)).1
  · exact (c6_description_truncation none (("two-sum").toList) none).2.1
      (Or.inl rfl)

/-! ### C7 -/

/-- The `groqComplete` model performs at most one outbound call. -/
theorem groqComplete_calls (k : Option (List Char)) (o : GroqOutcome)
    (s u : List Char) : (groqComplete k o s u).2.length ≤ 1 := by
  unfold groqComplete
  by_cases hk : jsFalsy k = true
  · simp [hk]
  · have hk' : jsFalsy k = false := by simpa using hk
    cases o with
    | raise m => simp [hk']
    | done content =>
      cases content with
      | none => simp [hk']
      | some raw =>
        by_cases ht : (trimL raw).isEmpty = true <;> simp [hk', ht]

/-- C7: every request handler performs at most one outbound network call
(and, the response being a function of that call's oracle result, it is
computed only after the result is available); with the key set,
`/api/youtube` performs exactly one of its two fetches. -/
theorem c7_at_most_one_outbound (env : Env) (b : ReqBody) (w : World) :
    (handleExplanation env b w).2.length ≤ 1
    ∧ (handlePseudocode env b w).2.length ≤ 1
    ∧ (handleCode env b w).2.length ≤ 1
    ∧ (handleYoutube env b w).2.length ≤ 1
    ∧ handleHealth.2.length ≤ 1
    ∧ (jsFalsy env.ytKey = false →
        ∃ u, (handleYoutube env b w).2 = [OutCall.fetchCall u]) := by
  have hyt : ∀ hk : jsFalsy env.ytKey = false,
      ∃ u, (handleYoutube env b w).2 = [OutCall.fetchCall u] := by
    intro hk
    unfold handleYoutube
    simp only [hk, Bool.false_eq_true, if_false]
    rcases extractProblemNumber (getPayload b).title (getPayload b).problemSlug
      with _ | n
    · rcases w.fallbackFetch with m | items
      · exact ⟨ytFallbackUrl (env.ytKey.getD []), rfl⟩
      · exact ⟨ytFallbackUrl (env.ytKey.getD []), rfl⟩
    · rcases w.playlistFetch with m | items
      · exact ⟨ytPlaylistUrl (env.ytKey.getD []), rfl⟩
      · exact ⟨ytPlaylistUrl (env.ytKey.getD []), rfl⟩
  refine ⟨?_, ?_, ?_, ?_, by decide, hyt⟩
  · exact groqEndpoint_calls _ _ _ _ _
  · exact groqEndpoint_calls _ _ _ _ _
  · simp only [handleCode]
    rcases hg : groqComplete env.groqKey w.groq CODE_SYSTEM
        (buildCodeUser (getPayload b).title (getPayload b).problemSlug
          (getPayload b).problemDescription (selectLanguage b.language))
      with ⟨e, cl⟩
    have hcl : cl.length ≤ 1 := by
      have h := groqComplete_calls env.groqKey w.groq CODE_SYSTEM
        (buildCodeUser (getPayload b).title (getPayload b).problemSlug
          (getPayload b).problemDescription (selectLanguage b.language))
      rw [hg] at h
      exact h
    cases e <;> simpa using hcl
  · by_cases hk : jsFalsy env.ytKey = true
    · simp [handleYoutube, hk]
    · have hk' : jsFalsy env.ytKey = false := by simpa using hk
      obtain ⟨u, hu⟩ := hyt hk'
      simp [hu]

/-- C7 (witness): with the YouTube key set, a concrete request performs
exactly one fetch. -/
theorem c7_at_most_one_outbound_witness :
    ∃ u, (handleYoutube ⟨none, some (("k").toList)⟩
      ⟨none, none, none, none, none⟩
      ⟨GroqOutcome.done none, FetchResult.ok [], FetchResult.ok []⟩).2
      = [OutCall.fetchCall u] :=
  (c7_at_most_one_outbound ⟨none, some (("k").toList)⟩
    ⟨none, none, none, none, none⟩
    ⟨GroqOutcome.done none, FetchResult.ok [], FetchResult.ok []⟩).2.2.2.2.2
    (by decide)

/-! ### C8 -/

/-- C8: `extractProblemNumber` returns the first standalone 1-to-4-digit
number of the title (the digit run at the first position of the title that
carries a word-boundary-delimited run of one to four digits), consults the
slug the same way only when the title yields none (because it is falsy or
has no such number), and returns null when neither does; since
`/api/youtube` calls it with the payload title and slug, the title's
number takes precedence there. -/
theorem c8_extract_first_standalone (title : Option (List Char))
    (slug : List Char) :
    extractProblemNumber title slug =
      match (match title with
             | none => none
             | some t => if t.isEmpty then none else specFirstNumber t) with
      | some n => some n
      | none => if slug.isEmpty then none else specFirstNumber slug := by
  simp only [extractProblemNumber, specFirstNumber, firstNumber_eq_find]

/-! ### C9 -/

/-- C9: `getPayload` prefers a truthy explicit `problemSlug` over the slug
parsed from `url`, falls back to the literal `unknown` when neither an
explicit slug nor a parseable URL is present, and passes `title`, `url`
and `problemDescription` through unchanged (so each is null exactly when
absent). -/
theorem c9_getPayload_defaults (b : ReqBody) :
    (∀ s, b.problemSlug = some s → s ≠ [] → (getPayload b).problemSlug = s)
    ∧ (jsFalsy b.problemSlug = true → parsedSlugOf b = none →
        (getPayload b).problemSlug = ("unknown").toList)
    ∧ (getPayload b).title = b.title
    ∧ (getPayload b).url = b.url
    ∧ (getPayload b).problemDescription = b.problemDescription := by
  refine ⟨?_, ?_, rfl, rfl, rfl⟩
  · intro s hs hne
    have he : s.isEmpty = false := by
      simpa [List.isEmpty_iff] using hne
    simp [getPayload, jsOr, hs, he]
  · intro hf hp
    cases hb : b.problemSlug with
    | none => simp [getPayload, jsOr, hb, hp]
    | some s =>
      have he : s.isEmpty = true := by
        simpa [jsFalsy, hb] using hf
      simp [getPayload, jsOr, hb, hp, he]

/-- C9 (witness): explicit slug wins over the URL; with nothing usable the
slug is `unknown`; absent fields come back null. -/
theorem c9_getPayload_defaults_witness :
    (getPayload ⟨some (("two-sum").toList), none,
      some (("https://leetcode.com/problems/3sum/").toList), none, none⟩).problemSlug
      = ("two-sum").toList
    ∧ (getPayload ⟨none, none, some (("https://example.com/x").toList),
        none, none⟩).problemSlug = ("unknown").toList
    ∧ (getPayload ⟨none, none, none, none, none⟩).title = none := by
  refine ⟨?_, ?_, ?_⟩
  · exact (c9_getPayload_defaults ⟨some (("two-sum").toList), none,
      some (("https://leetcode.com/problems/3sum/").toList), none, none⟩).1
      (("two-sum").toList) rfl (by decide)
  · exact (c9_getPayload_defaults ⟨none, none,
      some (("https://example.com/x").toList), none, none⟩).2.1
      (by decide) (by decide)
  · exact (c9_getPayload_defaults ⟨none, none, none, none, none⟩).2.2.1

/-! ### C10 -/

/-- C10: with the YouTube key set, an empty playlist result makes
`/api/youtube` answer success with a null video id — on both the
number-found path and the no-number fallback path — never an error. -/
theorem c10_empty_playlist_success (env : Env) (b : ReqBody) (w : World)
    (hk : jsFalsy env.ytKey = false)
    (hp : w.playlistFetch = FetchResult.ok [])
    (hf : w.fallbackFetch = FetchResult.ok []) :
    (handleYoutube env b w).1 = ⟨200, RespBody.ok (RespData.video none)⟩
    ∧ (handleYoutube env b w).1.successFlag = true := by
  have h : (handleYoutube env b w).1 = ⟨200, RespBody.ok (RespData.video none)⟩ := by
    unfold handleYoutube
    simp only [hk, Bool.false_eq_true, if_false]
    rcases extractProblemNumber (getPayload b).title (getPayload b).problemSlug
      with _ | n
    · simp [hf]
    · simp [hp, jsFalsy]
  exact ⟨h, by rw [h]; rfl⟩

/-- C10 (witness): both the number path and the fallback path at concrete
requests with an empty playlist. -/
theorem c10_empty_playlist_success_witness :
    (handleYoutube ⟨none, some (("k").toList)⟩
      ⟨none, some (("1. Two Sum").toList), none, none, none⟩
      ⟨GroqOutcome.done none, FetchResult.ok [], FetchResult.ok []⟩).1
      = ⟨200, RespBody.ok (RespData.video none)⟩
    ∧ (handleYoutube ⟨none, some (("k").toList)⟩
        ⟨none, none, none, none, none⟩
        ⟨GroqOutcome.done none, FetchResult.ok [], FetchResult.ok []⟩).1
      = ⟨200, RespBody.ok (RespData.video none)⟩ :=
  ⟨(c10_empty_playlist_success ⟨none, some (("k").toList)⟩
      ⟨none, some (("1. Two Sum").toList), none, none, none⟩
      ⟨GroqOutcome.done none, FetchResult.ok [], FetchResult.ok []⟩
      (by decide) rfl rfl).1,
   (c10_empty_playlist_success ⟨none, some (("k").toList)⟩
      ⟨none, none, none, none, none⟩
      ⟨GroqOutcome.done none, FetchResult.ok [], FetchResult.ok []⟩
      (by decide) rfl rfl).1⟩
